import Mathlib

/-!
# Verification of `remove-label-from-cards` (`src/index.js`)

A shallow embedding of the GitHub-Actions step that resolves project columns,
paginates their cards and (is intended to) dispatch label mutations on the
underlying issues.  JavaScript values that flow through the program are
modelled by the inductive type `JSVal`; the remote GitHub API is modelled by
an explicit environment (`Env`) of projects, columns and cards, and every
remote request an operation issues is recorded in an event trace
(`LogEvent`).  Fallible code returns `Except JSError`; an asynchronous
function that rejects its promise is an `Except` returning `.error`, and a
synchronous throw *before* a promise is created is distinguished where it
matters (`labelCards`).

Each definition mirrors one function of `src/index.js`; the line numbers in
the doc comments refer to that file.
-/

namespace RemoveLabel

/-- A JavaScript runtime value, as far as this program inspects values:
`undefined`, `null`, booleans, (finite) numbers, strings, arrays and plain
objects.  Numbers are modelled as rationals (every finite JS float is one);
`NaN`/`±Infinity` are not modelled — each would take the same rejection path
as any other non-integer at every check in this program.  Objects are
association lists of fields; lookups read the first binding of a key. -/
inductive JSVal where
  | undefined : JSVal
  | null : JSVal
  | bool (b : Bool) : JSVal
  | num (q : ℚ) : JSVal
  | str (s : String) : JSVal
  | arr (elems : List JSVal) : JSVal
  | obj (fields : List (String × JSVal)) : JSVal

/-- JavaScript errors by constructor, carrying the message. -/
inductive JSError where
  | typeError (msg : String) : JSError
  | rangeError (msg : String) : JSError
  | referenceError (msg : String) : JSError
  | genericError (msg : String) : JSError
deriving DecidableEq

/-- JS `String.prototype.toLowerCase`, character by character (`Char.toLower`
lower-cases the ASCII range; the labels this program handles are ASCII). -/
def jsToLower (s : String) : String :=
  String.mk (s.toList.map Char.toLower)

/-- `e` is a `TypeError` or a `RangeError`. -/
def JSError.isTypeOrRange : JSError → Bool
  | .typeError _ => true
  | .rangeError _ => true
  | _ => false

/-- JavaScript truthiness of a value (`if (v)`). -/
def jsTruthy : JSVal → Bool
  | .undefined => false
  | .null => false
  | .bool b => b
  | .num q => q != 0
  | .str s => s ≠ ""
  | .arr _ => true
  | .obj _ => true

/-- `isObject` (src/index.js lines 14-16): `typeof variable === 'object'`
holds of objects, arrays and `null`; the function then excludes arrays and
`null`, so only plain objects remain. -/
def isObject : JSVal → Bool
  | .obj _ => true
  | _ => false

/-- `isNonEmptyString` (src/index.js lines 21-23): a string of positive
length (the JS function returns the length, which is truthy iff nonzero). -/
def isNonEmptyString : JSVal → Bool
  | .str s => s ≠ ""
  | _ => false

/-- `Array.isArray`. -/
def isArray : JSVal → Bool
  | .arr _ => true
  | _ => false

/-- `v` is `null` or `undefined` — the values on which any property access
throws a `TypeError`. -/
def isNullish : JSVal → Bool
  | .null => true
  | .undefined => true
  | _ => false

/-- Longest leading run of decimal digits of a character list, as a number;
`none` when the run is empty (JS `NaN`). -/
def digitRun (cs : List Char) : Option Nat :=
  let ds := cs.takeWhile Char.isDigit
  if ds.isEmpty then none
  else some (ds.foldl (fun acc c => 10 * acc + (c.toNat - 48)) 0)

/-- Models ECMAScript `parseInt(s)` with the default radix: skip leading
whitespace, read an optional sign, then the longest run of decimal digits;
`none` models `NaN`.  (Hexadecimal `0x` prefixes, which no input of this
program uses, are not modelled.) -/
def jsParseInt (s : String) : Option Int :=
  let t := s.toList.dropWhile fun c => c == ' ' || c == '\t' || c == '\n' || c == '\r'
  match t with
  | '-' :: rest => (digitRun rest).map fun n => -(n : Int)
  | '+' :: rest => (digitRun rest).map fun n => (n : Int)
  | _ => (digitRun t).map fun n => (n : Int)

/-- Field lookup on an association list of object fields: value of the first
binding of `k`, `undefined` when absent. -/
def objGet (fields : List (String × JSVal)) (k : String) : JSVal :=
  match fields.find? fun p => p.1 == k with
  | some p => p.2
  | none => .undefined

/-- `k in obj`: some field binds the key. -/
def objHasKey (fields : List (String × JSVal)) (k : String) : Bool :=
  fields.any fun p => p.1 == k

/-- `delete obj[k]`. -/
def objDelete (fields : List (String × JSVal)) (k : String) : List (String × JSVal) :=
  fields.filter fun p => p.1 != k

/-- `obj[k] = v`: replace the binding in place when the key exists,
append it otherwise. -/
def objSet (fields : List (String × JSVal)) (k : String) (v : JSVal) : List (String × JSVal) :=
  if fields.any fun p => p.1 == k then
    fields.map fun p => if p.1 == k then (k, v) else p
  else fields ++ [(k, v)]

/-- Field lookup through a `JSVal`: property access on a non-object that is
not nullish yields `undefined` for the properties this program reads. -/
def jsGet (v : JSVal) (k : String) : JSVal :=
  match v with
  | .obj fields => objGet fields k
  | _ => .undefined

/-- `MAX_CARDS_PER_PAGE` (src/index.js line 9). -/
def MAX_CARDS_PER_PAGE : Nat := 100

/-- A project card as returned by the list-cards endpoint: an id and an
optional `content_url` (present on issue-backed cards, absent on notes). -/
structure Card where
  id : Int
  content_url : Option String
deriving DecidableEq

/-- Truthiness of `card.content_url`: the field is present and a non-empty
string. -/
def Card.hasContentUrl (c : Card) : Bool :=
  match c.content_url with
  | some u => u ≠ ""
  | none => false

/-- The `columnId` validation prologue shared by `getCardPage` and
`getColumnCardIssues` (src/index.js lines 36-42 and 52-56, repeated at
113-125): a string is coerced with `parseInt` and rejected when the result
is falsy (`NaN` or `0` — the source comments "The column id isn't going to
be 0"); then the value must be an integer (`Number.isInteger`), and
non-negative. -/
def validateColumnId (columnId : JSVal) : Except JSError Int :=
  let coerced : Except JSError JSVal :=
    match columnId with
    | .str s =>
      match jsParseInt s with
      | none => .error (.typeError "Param columnId is not an integer")
      | some n =>
        if n = 0 then .error (.typeError "Param columnId is not an integer")
        else .ok (.num (n : ℚ))
    | v => .ok v
  match coerced with
  | .error e => .error e
  | .ok (.num q) =>
    if q.den = 1 then
      if q < 0 then .error (.rangeError "Param columnId cannot be negative")
      else .ok q.num
    else .error (.typeError "Param columnId is not an integer")
  | .ok _ => .error (.typeError "Param columnId is not an integer")

/-- The page of cards the remote `listCards` endpoint serves for page number
`pageNumber` (1-based, `MAX_CARDS_PER_PAGE` cards per page) of a column
whose non-archived cards are `cards`. -/
def listCardsPage (cards : List Card) (pageNumber : Nat) : List Card :=
  (cards.drop ((pageNumber - 1) * MAX_CARDS_PER_PAGE)).take MAX_CARDS_PER_PAGE

/-- The do-while pagination loop of `getColumnCardIssues` (src/index.js
lines 127-143), started at page `page`: fetch a page, keep the cards whose
`content_url` is truthy, and continue while the raw page was full.  Returns
the accumulated issue cards together with the number of page requests
performed. -/
def getCardIssuesLoop (cards : List Card) (page : Nat) : List Card × Nat :=
  if h : (listCardsPage cards page).length = MAX_CARDS_PER_PAGE then
    let rest := getCardIssuesLoop cards (page + 1)
    ((listCardsPage cards page).filter Card.hasContentUrl ++ rest.1, rest.2 + 1)
  else
    ((listCardsPage cards page).filter Card.hasContentUrl, 1)
termination_by cards.length + 1 - page
decreasing_by
  simp only [listCardsPage, List.length_take, List.length_drop, MAX_CARDS_PER_PAGE] at h
  omega

/-- Closed form of the pagination loop, for any starting page `≥ 1`: it
returns the issue cards of the column suffix the start page begins at, in
order, and performs `remaining / 100 + 1` page requests — one request per
full page plus the terminal short page (which is an *extra* request when the
suffix length is an exact multiple of the page size, the empty column
included). -/
theorem getCardIssuesLoop_spec (cards : List Card) (page : Nat) :
    1 ≤ page →
    getCardIssuesLoop cards page =
      ((cards.drop ((page - 1) * MAX_CARDS_PER_PAGE)).filter Card.hasContentUrl,
        (cards.length - (page - 1) * MAX_CARDS_PER_PAGE) / MAX_CARDS_PER_PAGE + 1) := by
  refine getCardIssuesLoop.induct cards
    (fun p => 1 ≤ p →
      getCardIssuesLoop cards p =
        ((cards.drop ((p - 1) * MAX_CARDS_PER_PAGE)).filter Card.hasContentUrl,
          (cards.length - (p - 1) * MAX_CARDS_PER_PAGE) / MAX_CARDS_PER_PAGE + 1))
    ?_ ?_ page
  · intro p h ih hp
    rw [getCardIssuesLoop]
    simp only [dif_pos h]
    rw [ih (by omega)]
    have hsuffix : (p + 1 - 1) * MAX_CARDS_PER_PAGE
        = (p - 1) * MAX_CARDS_PER_PAGE + MAX_CARDS_PER_PAGE := by
      simp only [MAX_CARDS_PER_PAGE]
      omega
    have hdrop : cards.drop ((p + 1 - 1) * MAX_CARDS_PER_PAGE)
        = (cards.drop ((p - 1) * MAX_CARDS_PER_PAGE)).drop MAX_CARDS_PER_PAGE := by
      rw [List.drop_drop, ← hsuffix]
    simp only [Prod.mk.injEq]
    refine ⟨?_, ?_⟩
    · rw [listCardsPage, hdrop, ← List.filter_append, List.take_append_drop]
    · simp only [listCardsPage, List.length_take, List.length_drop] at h
      rw [hsuffix]
      simp only [MAX_CARDS_PER_PAGE] at h ⊢
      omega
  · intro p h _
    rw [getCardIssuesLoop]
    simp only [dif_neg h]
    simp only [listCardsPage, List.length_take, List.length_drop] at h
    simp only [Prod.mk.injEq]
    refine ⟨?_, ?_⟩
    · rw [listCardsPage, List.take_of_length_le]
      simp only [List.length_drop]
      simp only [MAX_CARDS_PER_PAGE] at h ⊢
      omega
    · simp only [MAX_CARDS_PER_PAGE] at h ⊢
      omega

/-- `url.match(/\/issues\/(\d+)$/)` reduced to its capture group: the match
succeeds exactly when the url ends in `/issues/` followed by one or more
digits, and the capture is that maximal trailing digit run. -/
def issueNumberCapture (url : String) : Option String :=
  let cs := url.toList
  let ds := (cs.reverse.takeWhile Char.isDigit).reverse
  let stem := cs.take (cs.length - ds.length)
  if ds.isEmpty then none
  else if ("/issues/".toList).isSuffixOf stem then some (String.mk ds)
  else none

/-- The remote `octokit.issues.addLabels` request `labelCardIssue` builds on
success: the program passes the *captured string* as the issue number and
the labels value through unchanged. -/
structure AddLabelsRequest where
  issue_number : String
  labels : JSVal

/-- `labelCardIssue` (src/index.js lines 201-228).  The `labels` check at
line 206 calls `reject(...)`, but no identifier `reject` is bound in the
function's scope, so evaluating that call throws a `ReferenceError`
("reject is not defined"); inside the `async` function this rejects the
returned promise before any later statement runs.  On success the function
returns the addLabels request it issues. -/
def labelCardIssue (card labels : JSVal) : Except JSError AddLabelsRequest :=
  if ¬ isObject card then
    .error (.typeError "Param card is not an object")
  else if ¬ isArray labels then
    -- the source's `reject(new TypeError(...))`: `reject` is an unbound
    -- identifier, so the call itself throws a ReferenceError
    .error (.referenceError "reject is not defined")
  else if ¬ jsTruthy (jsGet card "content_url") then
    .error (.referenceError "Card is missing field content_url")
  else
    match jsGet card "content_url" with
    | .str url =>
      match issueNumberCapture url with
      | none => .error (.genericError "Failed to extract issue number from url")
      | some digits => .ok ⟨digits, labels⟩
    | _ =>
      -- a truthy non-string `content_url` has no `.match` method
      .error (.typeError "card.content_url.match is not a function")

/-- The result of a JS promise: resolved with a value or rejected with an
error. -/
inductive PromiseResult where
  | resolved (n : Nat) : PromiseResult
  | rejected (e : JSError) : PromiseResult
deriving DecidableEq

/-- Per-card attempt outcomes of the dispatch loop of `labelCards`
(src/index.js lines 263-282), in dispatch order: the `i`-th attempt succeeds
iff `labelCardIssue` returns its request *and* the remote mutation — whose
success is the oracle `outcome i` — succeeds; an attempt whose
`labelCardIssue` rejects is caught, logged and counted as a failure. -/
def attemptResults (cards : List JSVal) (labels : JSVal) (outcome : Nat → Bool) : List Bool :=
  cards.enum.map fun p =>
    match labelCardIssue p.2 labels with
    | .ok _ => outcome p.1
    | .error _ => false

/-- Number of remote addLabels requests the dispatch loop actually issues:
one per card whose `labelCardIssue` reaches the request (a request is issued
even when the remote call then fails). -/
def requestsIssued (cards : List JSVal) (labels : JSVal) : Nat :=
  cards.countP fun card => (labelCardIssue card labels).isOk

/-- `labelCards` (src/index.js lines 236-284).  Line 237 reads
`cardData.length` before any check, which throws a synchronous `TypeError`
when `cardData` is `null` or `undefined` — before a promise exists; this is
the `.error` case of the outer `Except`.  Otherwise the function returns a
promise (`.ok`): it rejects on a non-array `cardData`; resolves `0`
immediately on an empty card list (before the `labels` check); rejects on a
non-array `labels`; else dispatches one `labelCardIssue` per card in input
order, catching and logging per-card failures, and resolves with the number
of successes once all attempts have settled. -/
def labelCards (cardData labels : JSVal) (outcome : Nat → Bool) :
    Except JSError (PromiseResult × Nat) :=
  match cardData with
  | .null => .error (.typeError "Cannot read property length of null")
  | .undefined => .error (.typeError "Cannot read property length of undefined")
  | .arr cards =>
    if cards.length = 0 then .ok (.resolved 0, 0)
    else if ¬ isArray labels then .ok (.rejected (.typeError "Param labels must be an array"), 0)
    else .ok (.resolved ((attemptResults cards labels outcome).count true),
        requestsIssued cards labels)
  | _ => .ok (.rejected (.typeError "Param cardData must be an array"), 0)

/-- One pass over the raw labels, fusing the source's
`labels.filter(...).map(label => label.toLowerCase())` (src/index.js lines
300-310): the first component is the kept labels — the non-empty strings, in
input order, lower-cased — and the second component records, in order, the
entries that were dropped with a warning. -/
def validateLabelsLoop : List JSVal → List String × List JSVal
  | [] => ([], [])
  | l :: rest =>
    let r := validateLabelsLoop rest
    match l with
    | .str s => if s = "" then (r.1, l :: r.2) else (jsToLower s :: r.1, r.2)
    | _ => (r.1, l :: r.2)

/-- `validateLabels` (src/index.js lines 291-311).  The
`column_labels_index` parameter is typed as an integer (every call site
passes the position of the entry), so the `Number.isInteger` guard always
passes; `labels` must be an array, else a `TypeError` is thrown.  Returns
the kept (lower-cased) labels and the dropped entries. -/
def validateLabels (column_labels_index : Int) (labels : JSVal) :
    Except JSError (List String × List JSVal) :=
  match labels with
  | .arr ls => .ok (validateLabelsLoop ls)
  | _ => .error (.typeError "Param labels must be an array")

/-- The column-identification chain of `validateColumnLabels` (src/index.js
lines 327-334): the column-id path requires `column_id` to be present *and a
non-empty string*, and then deletes the name fields; otherwise both name
fields must be present non-empty strings, and `column_id` is deleted; else
the entry has no valid identifiers. -/
def identifyColumn (fields : List (String × JSVal)) :
    Except JSError (List (String × JSVal)) :=
  if objHasKey fields "column_id" ∧ isNonEmptyString (objGet fields "column_id") then
    .ok (objDelete (objDelete fields "column_name") "project_name")
  else if objHasKey fields "column_name" ∧ isNonEmptyString (objGet fields "column_name")
      ∧ objHasKey fields "project_name" ∧ isNonEmptyString (objGet fields "project_name") then
    .ok (objDelete fields "column_id")
  else
    .error (.referenceError
      "element of columns_labels does not contain valid identifiers for a github column")

/-- `validateColumnLabels` (src/index.js lines 318-350), returning the
mutated entry.  The entry must be a plain object with a `labels` key, and a
valid column identification (`identifyColumn`).  A throw from
`validateLabels` is caught and treated as zero valid labels; an entry with
no valid labels is rejected; otherwise `labels` is overwritten with the
filtered, lower-cased list. -/
def validateColumnLabels (column_labels : JSVal) (column_labels_index : Int) :
    Except JSError JSVal :=
  match column_labels with
  | .obj fields =>
    if ¬ objHasKey fields "labels" then
      .error (.referenceError "element of columns_labels is missing key labels")
    else
      match identifyColumn fields with
      | .error e => .error e
      | .ok fields' =>
        let filtered_labels :=
          match validateLabels column_labels_index (objGet fields' "labels") with
          | .ok r => r.1
          | .error _ => []
        if filtered_labels.isEmpty then
          .error (.genericError "element of columns_labels does not contain valid labels")
        else
          .ok (.obj (objSet fields' "labels" (.arr (filtered_labels.map JSVal.str))))
  | _ => .error (.typeError "element of columns_labels is not an object")

/-- `validateColumnsLabels` (src/index.js lines 356-386) from the decoded
payload onward: `JSON.parse` of the raw input string is the external JSON
decoder and is modelled as having already produced a `JSVal` (a parse
failure is a fatal top-level error outside these claims).  The payload must
be an array; each entry is validated independently, a throwing entry is
logged and skipped, and the surviving (mutated) entries are returned in
order; an empty survivor list is a fatal error. -/
def validateColumnsLabels (columns_labels : JSVal) : Except JSError (List JSVal) :=
  match columns_labels with
  | .arr entries =>
    let valid := (entries.enum.filterMap fun p =>
      (validateColumnLabels p.2 (p.1 : Int)).toOption)
    if valid.isEmpty then
      .error (.genericError
        "Could not find a valid object with a column identifier and a list of labels")
    else .ok valid
  | _ => .error (.typeError "param columns_labels must be an array")

/-- A remote project: id and display name. -/
structure ProjectInfo where
  id : Int
  name : String
deriving DecidableEq

/-- A remote column: id and display name. -/
structure ColumnInfo where
  id : Int
  name : String
deriving DecidableEq

/-- The remote GitHub state the run reads: the repository's project list,
each project's columns, and each column's non-archived cards (served in
pages of `MAX_CARDS_PER_PAGE`). -/
structure Env where
  projects : List ProjectInfo
  columns : Int → List ColumnInfo
  cards : Int → List Card

/-- Observable actions of a run: remote requests and the error/warning logs
the orchestrator emits.  `labelCardsCall` would be emitted by an invocation
of the dispatcher from `main`; the call at src/index.js line 450 is
commented out, so the embedding of `main` never emits it. -/
inductive LogEvent where
  | reqProjects : LogEvent
  | reqColumns (projectId : Int) : LogEvent
  | reqCardPage (columnId : Int) : LogEvent
  | reqIssueLabels (issueNumber : Int) : LogEvent
  | labelCardsCall (cardCount : Nat) : LogEvent
  | errProjectLookup : LogEvent
  | errColumnLookup : LogEvent
  | errCardFetch : LogEvent
  | warnExtract (url : String) : LogEvent
deriving DecidableEq

/-- The event is the orchestrator's "Failed to find project" error log. -/
def LogEvent.isErrProjectLookup : LogEvent → Bool
  | .errProjectLookup => true
  | _ => false

/-- The event is the orchestrator's "Failed to find column" error log. -/
def LogEvent.isErrColumnLookup : LogEvent → Bool
  | .errColumnLookup => true
  | _ => false

/-- The event is a list-columns request. -/
def LogEvent.isReqColumns : LogEvent → Bool
  | .reqColumns _ => true
  | _ => false

/-- The event is a card-page request. -/
def LogEvent.isReqCardPage : LogEvent → Bool
  | .reqCardPage _ => true
  | _ => false

/-- The event is a fetch of an issue's current labels. -/
def LogEvent.isReqIssueLabels : LogEvent → Bool
  | .reqIssueLabels _ => true
  | _ => false

/-- The event is an invocation of the `labelCards` dispatcher. -/
def LogEvent.isLabelCardsCall : LogEvent → Bool
  | .labelCardsCall _ => true
  | _ => false

/-- `getProject` (src/index.js lines 180-193): throws a `TypeError` on a
name that is not a non-empty string (issuing no request), else requests the
repository's project list and resolves with the *first* project whose name
matches exactly — `undefined` (here `none`) when no exact match exists; it
does not throw on a miss. -/
def getProject (env : Env) (projectName : JSVal) :
    Except JSError (Option ProjectInfo) × List LogEvent :=
  match projectName with
  | .str s =>
    if s = "" then (.error (.typeError "Param projectName must be a non empty string"), [])
    else (.ok (env.projects.find? fun p => p.name == s), [.reqProjects])
  | _ => (.error (.typeError "Param projectName must be a non empty string"), [])

/-- `getColumn` (src/index.js lines 81-103): the project id reaching it from
`main` is the number of a fetched project, so the string-coercion branch is
dead; a negative id is a `RangeError`; else it requests the project's
columns and resolves with the first exact name match (`column.name ===
columnName` is `false` for every column when `columnName` is not a string),
`none` on a miss. -/
def getColumn (env : Env) (columnName : JSVal) (projectId : Int) :
    Except JSError (Option ColumnInfo) × List LogEvent :=
  if projectId < 0 then (.error (.rangeError "Param projectId cannot be negative"), [])
  else
    ((.ok ((env.columns projectId).find? fun c =>
        match columnName with
        | .str s => c.name == s
        | _ => false)),
      [.reqColumns projectId])

/-- `getColumnCardIssues` (src/index.js lines 112-144) against the
environment: validate the column id (coercing a numeric string), then run
the pagination loop over that column's cards, recording one card-page
request per loop iteration.  A validation failure issues no request. -/
def getColumnCardIssues (env : Env) (columnId : JSVal) :
    Except JSError (List Card) × List LogEvent :=
  match validateColumnId columnId with
  | .error e => (.error e, [])
  | .ok n =>
    (.ok (getCardIssuesLoop (env.cards n) 1).1,
      List.replicate (getCardIssuesLoop (env.cards n) 1).2 (.reqCardPage n))

/-- The per-card body of `main`'s loop over the fetched cards (src/index.js
lines 437-449): extract the issue number from `content_url` (warning and
`continue` when the pattern does not match), then fetch and log the issue's
current labels — debug output left in the source.  The `labelCards`
dispatch that should follow the loop (line 450) is commented out, so no
`labelCardsCall` event is ever produced. -/
def processCards (cards : List Card) : List LogEvent :=
  cards.flatMap fun card =>
    let url := card.content_url.getD ""
    match issueNumberCapture url with
    | none => [.warnExtract url]
    | some digits => [.reqIssueLabels ((jsParseInt digits).getD 0)]

/-- The tail of a directive's processing once a column id value is in hand
(src/index.js lines 425-453): paginate the cards (log and skip the
directive on failure), then run the per-card loop. -/
def finishDirective (env : Env) (columnId : JSVal) : List LogEvent :=
  match getColumnCardIssues env columnId with
  | (.error _, log) => log ++ [.errCardFetch]
  | (.ok cards, log) => log ++ processCards cards

/-- One iteration of `main`'s directive loop (src/index.js lines 391-453).
When the directive's `column_id` is falsy the name path runs: a *throw*
from `getProject` logs the project error and skips; when `getProject`
resolves with `undefined` (project not found), reading `project.id` as the
argument of `getColumn` throws a `TypeError` inside the *second* try block,
which logs the column error and skips — the project-lookup catch never sees
a miss.  A found column with a falsy id also logs the column error. -/
def processDirective (env : Env) (column_labels : JSVal) : List LogEvent :=
  let columnId := jsGet column_labels "column_id"
  if jsTruthy columnId then
    finishDirective env columnId
  else
    match getProject env (jsGet column_labels "project_name") with
    | (.error _, log) => log ++ [.errProjectLookup]
    | (.ok none, log) =>
      -- `project` is `undefined`; `project.id` throws inside the column try
      log ++ [.errColumnLookup]
    | (.ok (some project), log) =>
      match getColumn env (jsGet column_labels "column_name") project.id with
      | (.error _, log2) => log ++ log2 ++ [.errColumnLookup]
      | (.ok none, log2) => log ++ log2 ++ [.errColumnLookup]
      | (.ok (some column), log2) =>
        if column.id = 0 then log ++ log2 ++ [.errColumnLookup]
        else log ++ log2 ++ finishDirective env (.num (column.id : ℚ))

/-- `main` (src/index.js lines 388-455): validate the directives (a fatal
error when none survive), then process each in order; per-directive
failures are logged and skipped, never aborting the run. -/
def main (env : Env) (columns_labels : JSVal) : Except JSError (List LogEvent) :=
  match validateColumnsLabels columns_labels with
  | .error e => .error e
  | .ok valids => .ok (valids.flatMap (processDirective env))

/-! ## Shared helper lemmas -/

/-- After replacing the binding of `k` in place, `find?` on `k` returns the
new binding, provided the key was present. -/
theorem find?_replaceKey (k : String) (v : JSVal) (fields : List (String × JSVal))
    (h : (fields.any fun p => p.1 == k) = true) :
    (fields.map fun p => if p.1 == k then (k, v) else p).find? (fun p => p.1 == k)
      = some (k, v) := by
  induction fields with
  | nil => simp at h
  | cons p rest ih =>
    rw [List.map_cons]
    by_cases hp : (p.1 == k) = true
    · rw [if_pos hp, List.find?_cons_of_pos _ (by simp)]
    · rw [if_neg hp]
      refine (@List.find?_cons_of_neg _ (fun q => q.1 == k) p _ hp).trans ?_
      exact ih (by simpa [List.any_cons, hp] using h)

/-- Setting a key makes it the key's value, whether the key was present
(replaced in place) or appended. -/
theorem objGet_objSet_self (fields : List (String × JSVal)) (k : String) (v : JSVal) :
    objGet (objSet fields k v) k = v := by
  rw [objSet]
  by_cases hany : (fields.any fun p => p.1 == k) = true
  · rw [if_pos hany, objGet, find?_replaceKey k v fields hany]
  · rw [if_neg hany, objGet, List.find?_append]
    have hnone : fields.find? (fun p => p.1 == k) = none := by
      rw [List.find?_eq_none]
      intro x hx hk
      exact hany (List.any_eq_true.2 ⟨x, hx, hk⟩)
    rw [hnone]
    simp [List.find?_cons]

/-- Replacing the binding of `k` in place does not change whether a
different key occurs. -/
theorem any_replaceKey (k k' : String) (v : JSVal) (h : k' ≠ k)
    (fields : List (String × JSVal)) :
    ((fields.map fun p => if p.1 == k then (k, v) else p).any fun p => p.1 == k')
      = fields.any fun p => p.1 == k' := by
  induction fields with
  | nil => rfl
  | cons p rest ih =>
    rw [List.map_cons, List.any_cons, List.any_cons, ih]
    by_cases hp : (p.1 == k) = true
    · rw [if_pos hp]
      have hpk : p.1 = k := by simpa using hp
      have h1 : (k == k') = false := beq_eq_false_iff_ne.2 (Ne.symm h)
      simp only [hpk, h1]
    · rw [if_neg hp]

/-- Setting one key does not change whether a different key is present. -/
theorem objHasKey_objSet (fields : List (String × JSVal)) (k k' : String) (v : JSVal)
    (h : k' ≠ k) : objHasKey (objSet fields k v) k' = objHasKey fields k' := by
  rw [objSet]
  by_cases hany : (fields.any fun p => p.1 == k) = true
  · rw [if_pos hany, objHasKey, objHasKey, any_replaceKey k k' v h]
  · rw [if_neg hany, objHasKey, objHasKey, List.any_append]
    have h1 : (k == k') = false := beq_eq_false_iff_ne.2 (Ne.symm h)
    simp [h1]

/-- A deleted key is absent. -/
theorem objHasKey_objDelete_self (fields : List (String × JSVal)) (k : String) :
    objHasKey (objDelete fields k) k = false := by
  rw [objHasKey, objDelete, Bool.eq_false_iff]
  intro hc
  obtain ⟨x, hx, hk⟩ := List.any_eq_true.1 hc
  have hne := (List.mem_filter.1 hx).2
  rw [bne_iff_ne] at hne
  exact hne (beq_iff_eq.1 hk)

/-- Deleting one key does not change whether a different key is present. -/
theorem objHasKey_objDelete (fields : List (String × JSVal)) (k k' : String)
    (h : k' ≠ k) : objHasKey (objDelete fields k) k' = objHasKey fields k' := by
  rw [objHasKey, objHasKey, objDelete]
  induction fields with
  | nil => rfl
  | cons p rest ih =>
    rw [List.filter_cons, List.any_cons]
    by_cases hq : (p.1 == k') = true
    · have hd : (p.1 != k) = true := by
        have hpk : p.1 = k' := by simpa using hq
        rw [bne_iff_ne, hpk]
        exact h
      rw [if_pos hd, List.any_cons, ih]
    · by_cases hd : (p.1 != k) = true
      · rw [if_pos hd, List.any_cons, ih]
      · rw [if_neg hd, ih]
        simp [hq]

/-- In a list of booleans, the `true`s and the `false`s account for the
whole length. -/
theorem count_true_add_count_false (l : List Bool) :
    l.count true + l.count false = l.length := by
  induction l with
  | nil => rfl
  | cons b t ih =>
    cases b <;> simp [List.count_cons] <;> omega

/-- The kept and the dropped entries of a filter partition the length. -/
theorem length_filter_add_length_filter_not {α : Type} (p : α → Bool) (l : List α) :
    (l.filter p).length + (l.filter fun a => !(p a)).length = l.length := by
  induction l with
  | nil => rfl
  | cons a t ih =>
    by_cases h : p a <;> simp [List.filter_cons, h] <;> omega

/-- There is one dispatch attempt per card. -/
theorem attemptResults_length (cards : List JSVal) (labels : JSVal) (outcome : Nat → Bool) :
    (attemptResults cards labels outcome).length = cards.length := by
  rw [attemptResults, List.length_map, List.enum_length]

/-- An integer-valued number passes the column-id validation with its value. -/
theorem validateColumnId_intCast (n : Int) (h : 0 ≤ n) :
    validateColumnId (.num (n : ℚ)) = .ok n := by
  show (if ((n : ℚ)).den = 1 then
      if (n : ℚ) < 0 then
        (Except.error (JSError.rangeError "Param columnId cannot be negative") : Except JSError Int)
      else Except.ok ((n : ℚ)).num
    else Except.error (JSError.typeError "Param columnId is not an integer")) = Except.ok n
  rw [if_pos (Rat.den_intCast n), if_neg (by rw [not_lt]; exact_mod_cast h), Rat.num_intCast]

/-- Evaluation of `getColumnCardIssues` once the column id validates: the
filtered cards of that column, and one page request per `100` cards plus
the terminal short page. -/
theorem getColumnCardIssues_eval (env : Env) (v : JSVal) (n : Int)
    (h : validateColumnId v = .ok n) :
    getColumnCardIssues env v =
      (.ok ((env.cards n).filter Card.hasContentUrl),
        List.replicate ((env.cards n).length / MAX_CARDS_PER_PAGE + 1) (.reqCardPage n)) := by
  rw [getColumnCardIssues, h]
  show (Except.ok (getCardIssuesLoop (env.cards n) 1).1,
      List.replicate (getCardIssuesLoop (env.cards n) 1).2 (LogEvent.reqCardPage n)) = _
  rw [getCardIssuesLoop_spec _ 1 le_rfl]
  simp

/-- Keep/drop characterisation of the one-pass label filter: the kept
component is exactly the non-empty strings, in order, lower-cased; the
dropped component is exactly the other entries, in order. -/
theorem validateLabelsLoop_spec (ls : List JSVal) :
    validateLabelsLoop ls
      = (ls.filterMap (fun l => match l with
            | .str s => if s = "" then none else some (jsToLower s)
            | _ => none),
          ls.filter fun l => !(isNonEmptyString l)) := by
  induction ls with
  | nil => rfl
  | cons l rest ih =>
    cases l <;>
      simp only [validateLabelsLoop, ih, List.filterMap_cons, List.filter_cons,
        isNonEmptyString, Bool.not_true, Bool.not_false, if_true, if_false, ite_not]
    case str s =>
      by_cases hs : s = "" <;>
        simp [hs]

/-! ## The claims -/

/-- **C9**: for every input label array, `validateLabels` returns exactly the
elements that are non-empty strings, in input order, each mapped to lower
case; every non-string or empty entry is dropped (with a logged warning,
recorded here as the second component) and never appears in the output. -/
theorem c9_validateLabels_filters_and_lowercases (column_labels_index : Int) (ls : List JSVal) :
    validateLabels column_labels_index (.arr ls)
      = .ok (ls.filterMap (fun l => match l with
            | .str s => if s = "" then none else some (jsToLower s)
            | _ => none),
          ls.filter fun l => !(isNonEmptyString l)) := by
  show Except.ok (validateLabelsLoop ls) = _
  rw [validateLabelsLoop_spec]

/-- **C10**: for every card object and every non-array `labels` value,
`labelCardIssue` rejects without issuing any remote request (the result is
an error, not an `AddLabelsRequest`), and the rejection is the
`ReferenceError` raised by the call to the unbound identifier `reject`
(src/index.js line 207) — not the `TypeError` that call constructs;
execution never continues past that check. -/
theorem c10_labelCardIssue_reference_error (card labels : JSVal)
    (hc : isObject card = true) (hl : isArray labels = false) :
    labelCardIssue card labels = .error (.referenceError "reject is not defined") := by
  rw [labelCardIssue, if_neg (not_not_intro hc), if_pos (by simp [hl])]

/-- Witness for C10 at a concrete object card and numeric labels value. -/
theorem c10_witness :
    labelCardIssue (.obj []) (.num 3) = .error (.referenceError "reject is not defined") :=
  c10_labelCardIssue_reference_error (.obj []) (.num 3) rfl rfl

/-- **C4**: for every array of `n` cards and every label list, `labelCards`
resolves with exactly `n - f`, where `f` is the number of individual
`labelCardIssue` dispatches that fail (each caught and logged without
aborting the batch); and the resolved count equals the number of successes
over *all* `n` settled attempts in whatever completion order they settle
(`settled` is any permutation of the attempt outcomes). -/
theorem c4_dispatcher_count_invariant (cards ls : List JSVal) (outcome : Nat → Bool)
    (settled : List Bool)
    (hsettled : settled.Perm (attemptResults cards (.arr ls) outcome)) :
    labelCards (.arr cards) (.arr ls) outcome
      = .ok (.resolved (cards.length
            - (attemptResults cards (.arr ls) outcome).count false),
          requestsIssued cards (.arr ls))
    ∧ settled.count true
        = cards.length - (attemptResults cards (.arr ls) outcome).count false := by
  have hlen := attemptResults_length cards (.arr ls) outcome
  have hcount := count_true_add_count_false (attemptResults cards (.arr ls) outcome)
  have htrue : (attemptResults cards (.arr ls) outcome).count true
      = cards.length - (attemptResults cards (.arr ls) outcome).count false := by
    omega
  refine ⟨?_, ?_⟩
  · show (if cards.length = 0 then
          (Except.ok (PromiseResult.resolved 0, 0) : Except JSError (PromiseResult × Nat))
        else if ¬ isArray (.arr ls) then
          Except.ok (.rejected (.typeError "Param labels must be an array"), 0)
        else Except.ok (.resolved ((attemptResults cards (.arr ls) outcome).count true),
          requestsIssued cards (.arr ls))) = _
    by_cases hnil : cards.length = 0
    · rw [if_pos hnil]
      have hc : cards = [] := List.length_eq_zero.1 hnil
      subst hc
      rfl
    · rw [if_neg hnil,
        if_neg (not_not_intro (show isArray (JSVal.arr ls) = true from rfl)), htrue]
  · rw [hsettled.count_eq true, htrue]

/-- Witness for C4: one issue card, empty label list, a succeeding remote
call, settled in dispatch order. -/
theorem c4_witness :
    labelCards (.arr [.obj [("content_url", .str "r/issues/3")]]) (.arr []) (fun _ => true)
      = .ok (.resolved 1, 1)
    ∧ [true].count true = 1 := by
  have h := c4_dispatcher_count_invariant [.obj [("content_url", .str "r/issues/3")]] []
    (fun _ => true)
    (attemptResults [.obj [("content_url", .str "r/issues/3")]] (.arr []) (fun _ => true))
    (List.Perm.refl _)
  have hA : attemptResults [.obj [("content_url", .str "r/issues/3")]] (.arr [])
      (fun _ => true) = [true] := rfl
  have hR : requestsIssued [.obj [("content_url", .str "r/issues/3")]] (.arr []) = 1 := rfl
  rw [hA, hR] at h
  simpa using h

/-- Counterexample to **C6** as stated: `labels = 5` is not an array, yet
with an empty card list the promise *resolves* with `0` — the empty-list
early return (src/index.js line 249) precedes the `labels` check (line 254),
so no rejection happens. -/
theorem c6_counterexample_empty_cards_nonarray_labels :
    isArray (.num 5) = false
    ∧ labelCards (.arr []) (.num 5) (fun _ => true) = .ok (.resolved 0, 0) :=
  ⟨rfl, rfl⟩

/-- **C6** (amended): `null`/`undefined` card data throws a synchronous
`TypeError` (reading `.length` at line 237) before any promise exists; any
other non-array card data makes the returned promise reject with a
`TypeError`; an empty card array resolves with `0` *regardless of `labels`*
(the empty-list return precedes the `labels` check); and a non-empty card
array with a non-array `labels` rejects with a `TypeError`.  In every one of
these cases no mutation request is issued (the request count is `0`). -/
theorem c6_input_validation_behaviour (cardData labels : JSVal) (outcome : Nat → Bool) :
    (isNullish cardData = true →
      ∃ m, labelCards cardData labels outcome = .error (.typeError m))
    ∧ (isNullish cardData = false → isArray cardData = false →
        labelCards cardData labels outcome
          = .ok (.rejected (.typeError "Param cardData must be an array"), 0))
    ∧ labelCards (.arr []) labels outcome = .ok (.resolved 0, 0)
    ∧ (∀ cs : List JSVal, cs.isEmpty = false → isArray labels = false →
        labelCards (.arr cs) labels outcome
          = .ok (.rejected (.typeError "Param labels must be an array"), 0)) := by
  refine ⟨?_, ?_, rfl, ?_⟩
  · intro h
    cases cardData <;> simp [isNullish] at h <;> exact ⟨_, rfl⟩
  · intro h1 h2
    cases cardData <;> simp [isNullish] at h1 <;> simp [isArray] at h2 <;> rfl
  · intro cs h1 h2
    cases cs with
    | nil => simp at h1
    | cons c t =>
      show (if (c :: t).length = 0 then
          (Except.ok (PromiseResult.resolved 0, 0) : Except JSError (PromiseResult × Nat))
        else if ¬ isArray labels = true then
          Except.ok (.rejected (.typeError "Param labels must be an array"), 0)
        else Except.ok (.resolved ((attemptResults (c :: t) labels outcome).count true),
          requestsIssued (c :: t) labels)) = _
      rw [if_neg (by simp), if_pos (by simp [h2])]

/-- Witness for C6 at concrete inputs, one per amended clause. -/
theorem c6_witness :
    (∃ m, labelCards .null (.arr []) (fun _ => true) = .error (.typeError m))
    ∧ labelCards (.num 7) (.arr []) (fun _ => true)
        = .ok (.rejected (.typeError "Param cardData must be an array"), 0)
    ∧ labelCards (.arr []) (.bool true) (fun _ => true) = .ok (.resolved 0, 0)
    ∧ labelCards (.arr [.null]) (.num 5) (fun _ => true)
        = .ok (.rejected (.typeError "Param labels must be an array"), 0) :=
  ⟨(c6_input_validation_behaviour .null (.arr []) (fun _ => true)).1 rfl,
   (c6_input_validation_behaviour (.num 7) (.arr []) (fun _ => true)).2.1 rfl rfl,
   (c6_input_validation_behaviour (.arr []) (.bool true) (fun _ => true)).2.2.1,
   (c6_input_validation_behaviour (.arr [.null]) (.num 5) (fun _ => true)).2.2.2 [.null] rfl rfl⟩

/-- The column-id values the validation prologue actually accepts: an
integer-valued non-negative number, or a string whose `parseInt` coercion is
a *positive* integer (a string coercing to `0` is rejected by the falsiness
check, and one coercing to a negative integer by the sign check). -/
def acceptedColumnId : JSVal → Bool
  | .num q => q.den == 1 && decide (0 ≤ q)
  | .str s =>
    match jsParseInt s with
    | some n => decide (0 < n)
    | none => false
  | _ => false

/-- Counterexample to **C7** as stated: `"0"` is a numeric string that
coerces to the non-negative integer `0`, so the claim says it is accepted;
the code instead throws a `TypeError` (the coerced value is falsy —
src/index.js lines 116-118). -/
theorem c7_counterexample_zero_string :
    jsParseInt "0" = some 0
    ∧ validateColumnId (.str "0")
        = .error (.typeError "Param columnId is not an integer") :=
  ⟨rfl, rfl⟩

/-- **C7** (amended): `getColumnCardIssues`'s validation raises a
`TypeError` or `RangeError` before issuing any remote request (the request
trace is empty) exactly when the column id is not accepted, where the
accepted values are precisely: integer-valued non-negative numbers, and
numeric strings coercing to a *positive* integer. -/
theorem c7_column_id_validation_characterisation (v : JSVal) (env : Env) :
    (acceptedColumnId v = false →
      ∃ e, validateColumnId v = .error e ∧ e.isTypeOrRange = true
        ∧ (getColumnCardIssues env v).2 = [])
    ∧ (acceptedColumnId v = true →
        ∃ n, validateColumnId v = .ok n ∧ 0 ≤ n
          ∧ (getColumnCardIssues env v).1 = .ok ((env.cards n).filter Card.hasContentUrl)) := by
  have htrace : ∀ e, validateColumnId v = .error e → (getColumnCardIssues env v).2 = [] := by
    intro e he
    rw [getColumnCardIssues, he]
  have hcards : ∀ n, validateColumnId v = .ok n →
      (getColumnCardIssues env v).1 = .ok ((env.cards n).filter Card.hasContentUrl) := by
    intro n hn
    rw [getColumnCardIssues_eval env v n hn]
  cases v with
  | num q =>
    by_cases hden : q.den = 1
    · by_cases hneg : q < 0
      · have hval : validateColumnId (.num q)
            = .error (.rangeError "Param columnId cannot be negative") := by
          show (if q.den = 1 then
              if q < 0 then
                (Except.error (JSError.rangeError "Param columnId cannot be negative") :
                  Except JSError Int)
              else Except.ok q.num
            else Except.error (JSError.typeError "Param columnId is not an integer")) = _
          rw [if_pos hden, if_pos hneg]
        refine ⟨fun _ => ⟨_, hval, rfl, htrace _ hval⟩, fun hacc => ?_⟩
        simp [acceptedColumnId, hden, not_le.2 hneg] at hacc
      · have hval : validateColumnId (.num q) = .ok q.num := by
          show (if q.den = 1 then
              if q < 0 then
                (Except.error (JSError.rangeError "Param columnId cannot be negative") :
                  Except JSError Int)
              else Except.ok q.num
            else Except.error (JSError.typeError "Param columnId is not an integer")) = _
          rw [if_pos hden, if_neg hneg]
        refine ⟨fun hacc => ?_, fun _ =>
          ⟨q.num, hval, Rat.num_nonneg.2 (not_lt.1 hneg), hcards _ hval⟩⟩
        simp [acceptedColumnId, hden, not_lt.1 hneg] at hacc
    · have hval : validateColumnId (.num q)
          = .error (.typeError "Param columnId is not an integer") := by
        show (if q.den = 1 then
            if q < 0 then
              (Except.error (JSError.rangeError "Param columnId cannot be negative") :
                Except JSError Int)
            else Except.ok q.num
          else Except.error (JSError.typeError "Param columnId is not an integer")) = _
        rw [if_neg hden]
      refine ⟨fun _ => ⟨_, hval, rfl, htrace _ hval⟩, fun hacc => ?_⟩
      simp [acceptedColumnId, hden] at hacc
  | str s =>
    cases hp : jsParseInt s with
    | none =>
      have hval : validateColumnId (.str s)
          = .error (.typeError "Param columnId is not an integer") := by
        rw [validateColumnId]
        simp only [hp]
      refine ⟨fun _ => ⟨_, hval, rfl, htrace _ hval⟩, fun hacc => ?_⟩
      simp [acceptedColumnId, hp] at hacc
    | some n =>
      by_cases h0 : n = 0
      · have hval : validateColumnId (.str s)
            = .error (.typeError "Param columnId is not an integer") := by
          rw [validateColumnId]
          simp only [hp, if_pos h0]
        refine ⟨fun _ => ⟨_, hval, rfl, htrace _ hval⟩, fun hacc => ?_⟩
        simp [acceptedColumnId, hp, h0] at hacc
      · by_cases hneg : n < 0
        · have hval : validateColumnId (.str s)
              = .error (.rangeError "Param columnId cannot be negative") := by
            rw [validateColumnId]
            simp only [hp, if_neg h0]
            rw [if_pos (Rat.den_intCast n), if_pos (by exact_mod_cast hneg)]
          refine ⟨fun _ => ⟨_, hval, rfl, htrace _ hval⟩, fun hacc => ?_⟩
          simp [acceptedColumnId, hp] at hacc
          omega
        · have hval : validateColumnId (.str s) = .ok n := by
            rw [validateColumnId]
            simp only [hp, if_neg h0]
            rw [if_pos (Rat.den_intCast n),
              if_neg (show ¬ ((n : ℚ) < 0) by exact_mod_cast hneg), Rat.num_intCast]
          have hpos : 0 < n := by omega
          refine ⟨fun hacc => ?_, fun _ => ⟨n, hval, le_of_lt hpos, hcards _ hval⟩⟩
          simp [acceptedColumnId, hp, hpos] at hacc
  | undefined =>
    refine ⟨fun _ => ⟨_, rfl, rfl, htrace _ rfl⟩, fun hacc => ?_⟩
    simp [acceptedColumnId] at hacc
  | null =>
    refine ⟨fun _ => ⟨_, rfl, rfl, htrace _ rfl⟩, fun hacc => ?_⟩
    simp [acceptedColumnId] at hacc
  | bool b =>
    refine ⟨fun _ => ⟨_, rfl, rfl, htrace _ rfl⟩, fun hacc => ?_⟩
    simp [acceptedColumnId] at hacc
  | arr elems =>
    refine ⟨fun _ => ⟨_, rfl, rfl, htrace _ rfl⟩, fun hacc => ?_⟩
    simp [acceptedColumnId] at hacc
  | obj fields =>
    refine ⟨fun _ => ⟨_, rfl, rfl, htrace _ rfl⟩, fun hacc => ?_⟩
    simp [acceptedColumnId] at hacc

/-- Witness for C7 at two concrete inputs: the rejected boolean `true`, and
the accepted numeric string `"17"`. -/
theorem c7_witness :
    (∃ e, validateColumnId (.bool true) = .error e ∧ e.isTypeOrRange = true
      ∧ (getColumnCardIssues ⟨[], fun _ => [], fun _ => []⟩ (.bool true)).2 = [])
    ∧ (∃ n, validateColumnId (.str "17") = .ok n ∧ 0 ≤ n
        ∧ (getColumnCardIssues ⟨[], fun _ => [], fun _ => []⟩ (.str "17")).1
            = .ok ((((⟨[], fun _ => [], fun _ => []⟩ : Env)).cards n).filter Card.hasContentUrl)) :=
  ⟨(c7_column_id_validation_characterisation (.bool true) ⟨[], fun _ => [], fun _ => []⟩).1 rfl,
   (c7_column_id_validation_characterisation (.str "17") ⟨[], fun _ => [], fun _ => []⟩).2 rfl⟩


/-- **C3** (amended): for every column of `k` issue-bearing cards and `m`
note cards served in pages of size 100 starting at page 1,
`getColumnCardIssues` returns exactly the `k` issue-bearing cards,
preserving page order and within-page order, and performs exactly
`floor((k+m)/100) + 1` page requests — the loop terminates at the first
page with fewer than 100 raw cards, which costs one *extra* request
whenever `k+m` is a multiple of 100. -/
theorem c3_pagination_returns_issue_cards_with_floor_div_requests
    (env : Env) (cid : Int) (k m : Nat) (h0 : 0 ≤ cid)
    (hk : ((env.cards cid).filter Card.hasContentUrl).length = k)
    (hm : ((env.cards cid).filter fun c => !(c.hasContentUrl)).length = m) :
    getColumnCardIssues env (.num (cid : ℚ))
      = (.ok ((env.cards cid).filter Card.hasContentUrl),
          List.replicate ((k + m) / MAX_CARDS_PER_PAGE + 1) (.reqCardPage cid)) := by
  rw [getColumnCardIssues_eval env _ cid (validateColumnId_intCast cid h0)]
  have hsum := length_filter_add_length_filter_not Card.hasContentUrl (env.cards cid)
  have hlen : (env.cards cid).length = k + m := by omega
  rw [hlen]

/-- The column of the C3 counterexample: exactly 100 note cards. -/
def c3CexEnv : Env :=
  ⟨[], fun _ => [], fun n => if n = 7 then List.replicate 100 ⟨0, none⟩ else []⟩

/-- Counterexample to **C3** as stated: with `k = 0` issue cards and
`m = 100` note cards, the loop performs `2` page requests (the full first
page, then the empty terminal page), while the claim's `ceil((k+m)/100)`
predicts `1` (second conjunct: the ceiling of `100 / 100`). -/
theorem c3_counterexample_full_page_costs_extra_request :
    (getColumnCardIssues c3CexEnv (.num 7)).2.length = 2
    ∧ (0 + 100 + (MAX_CARDS_PER_PAGE - 1)) / MAX_CARDS_PER_PAGE = 1 := by
  refine ⟨?_, rfl⟩
  rw [getColumnCardIssues_eval c3CexEnv (.num 7) 7 rfl]
  simp [c3CexEnv, MAX_CARDS_PER_PAGE]

/-- The column of the C3 witness: one issue card, then one note card. -/
def c3WitEnv : Env :=
  ⟨[], fun _ => [], fun n => if n = 5 then [⟨21, some "r/issues/9"⟩, ⟨22, none⟩] else []⟩

/-- Witness for C3: a column with `k = 1` issue card and `m = 1` note card
yields exactly the issue card and a single page request. -/
theorem c3_witness :
    getColumnCardIssues c3WitEnv (.num ((5 : Int) : ℚ))
      = (.ok [⟨21, some "r/issues/9"⟩], [.reqCardPage 5]) := by
  have h := c3_pagination_returns_issue_cards_with_floor_div_requests c3WitEnv 5 1 1
    (by decide) (by decide) (by decide)
  rw [h]
  rfl

/-- Shape invariant of a validated directive: a usable column identification
path — either `column_id` with both name fields removed, or both name fields
with `column_id` removed — and a non-empty `labels` array. -/
def directiveWellFormed (d : JSVal) : Bool :=
  match d with
  | .obj fields =>
    ((objHasKey fields "column_id" && !objHasKey fields "column_name"
        && !objHasKey fields "project_name")
      || (!objHasKey fields "column_id" && objHasKey fields "column_name"
        && objHasKey fields "project_name"))
    && (match objGet fields "labels" with
        | .arr ls => !ls.isEmpty
        | _ => false)
  | _ => false

/-- Unfolding of `directiveWellFormed` on an object. -/
theorem directiveWellFormed_obj (fields : List (String × JSVal)) :
    directiveWellFormed (.obj fields)
      = (((objHasKey fields "column_id" && !objHasKey fields "column_name"
          && !objHasKey fields "project_name")
        || (!objHasKey fields "column_id" && objHasKey fields "column_name"
          && objHasKey fields "project_name"))
      && (match objGet fields "labels" with
          | .arr ls => !ls.isEmpty
          | _ => false)) := rfl

/-- A successful column identification leaves exactly one identification
path present. -/
theorem identifyColumn_shape (fields fields' : List (String × JSVal))
    (h : identifyColumn fields = .ok fields') :
    (objHasKey fields' "column_id" = true ∧ objHasKey fields' "column_name" = false
      ∧ objHasKey fields' "project_name" = false)
    ∨ (objHasKey fields' "column_id" = false ∧ objHasKey fields' "column_name" = true
      ∧ objHasKey fields' "project_name" = true) := by
  rw [identifyColumn] at h
  split at h
  · left
    rename_i hcond
    injection h with h
    subst h
    refine ⟨?_, ?_, objHasKey_objDelete_self _ _⟩
    · rw [objHasKey_objDelete _ _ _ (by decide), objHasKey_objDelete _ _ _ (by decide)]
      exact hcond.1
    · rw [objHasKey_objDelete _ _ _ (by decide), objHasKey_objDelete_self]
  · split at h
    · right
      rename_i hcond
      injection h with h
      subst h
      refine ⟨objHasKey_objDelete_self _ _, ?_, ?_⟩
      · rw [objHasKey_objDelete _ _ _ (by decide)]
        exact hcond.1
      · rw [objHasKey_objDelete _ _ _ (by decide)]
        exact hcond.2.2.1
    · exact absurd h (by simp)

/-- Every entry `validateColumnLabels` accepts is well-formed. -/
theorem validateColumnLabels_wellFormed (cl : JSVal) (i : Int) (d : JSVal)
    (h : validateColumnLabels cl i = .ok d) : directiveWellFormed d = true := by
  cases cl with
  | obj fields =>
    rw [validateColumnLabels] at h
    split at h
    · exact absurd h (by simp)
    · split at h
      · exact absurd h (by simp)
      · rename_i fields' hid
        dsimp only [] at h
        split at h
        · exact absurd h (by simp)
        · rename_i hne
          injection h with h
          subst h
          rw [Bool.not_eq_true] at hne
          rcases identifyColumn_shape fields fields' hid with ⟨h1, h2, h3⟩ | ⟨h1, h2, h3⟩ <;>
          · rw [directiveWellFormed_obj, objGet_objSet_self,
              objHasKey_objSet fields' "labels" "column_id" _ (by decide),
              objHasKey_objSet fields' "labels" "column_name" _ (by decide),
              objHasKey_objSet fields' "labels" "project_name" _ (by decide),
              h1, h2, h3]
            cases hL : (match validateLabels i (objGet fields' "labels") with
                | Except.ok r => r.1
                | Except.error a => []) with
            | nil =>
              rw [hL] at hne
              simp at hne
            | cons s0 L0 =>
              simp
  | undefined => exact absurd h (by simp [validateColumnLabels])
  | null => exact absurd h (by simp [validateColumnLabels])
  | bool b => exact absurd h (by simp [validateColumnLabels])
  | num q => exact absurd h (by simp [validateColumnLabels])
  | str s => exact absurd h (by simp [validateColumnLabels])
  | arr elems => exact absurd h (by simp [validateColumnLabels])


/-- **C8**: every directive in the output of `validateColumnsLabels` has a
usable column identification path — either a `column_id`, or both a
`column_name` and a `project_name`, with the unused identification fields
removed — and its `labels` field is a non-empty array. -/
theorem c8_validated_directive_invariant (payload : JSVal) (out : List JSVal)
    (h : validateColumnsLabels payload = .ok out) :
    ∀ d ∈ out, directiveWellFormed d = true := by
  intro d hd
  cases payload with
  | arr entries =>
    rw [validateColumnsLabels] at h
    split at h
    · exact absurd h (by simp)
    · injection h with h
      subst h
      obtain ⟨p, hp, hvd⟩ := List.mem_filterMap.1 hd
      cases hv : validateColumnLabels p.2 (p.1 : Int) with
      | error e =>
        rw [hv] at hvd
        simp [Except.toOption] at hvd
      | ok d' =>
        rw [hv] at hvd
        simp only [Except.toOption, Option.some.injEq] at hvd
        subst hvd
        exact validateColumnLabels_wellFormed _ _ _ hv
  | undefined => exact absurd h (by simp [validateColumnsLabels])
  | null => exact absurd h (by simp [validateColumnsLabels])
  | bool b => exact absurd h (by simp [validateColumnsLabels])
  | num q => exact absurd h (by simp [validateColumnsLabels])
  | str s => exact absurd h (by simp [validateColumnsLabels])
  | obj fields => exact absurd h (by simp [validateColumnsLabels])

/-- Witness for C8: one concrete payload accepted through the column-id
path, whose surviving directive is well-formed. -/
theorem c8_witness :
    directiveWellFormed (.obj [("column_id", .str "42"), ("labels", .arr [.str "bug"])]) = true :=
  c8_validated_directive_invariant
    (.arr [.obj [("column_id", .str "42"), ("labels", .arr [.str "Bug"])]])
    [.obj [("column_id", .str "42"), ("labels", .arr [.str "bug"])]]
    rfl
    (.obj [("column_id", .str "42"), ("labels", .arr [.str "bug"])])
    (List.mem_singleton.2 rfl)

/-- The remote state of the C5 counterexample: one project named "Other"
(no project named "Nonexistent"), with a column that would match by name. -/
def c5CexEnv : Env := ⟨[⟨7, "Other"⟩], fun _ => [⟨9, "To Do"⟩], fun _ => []⟩

/-- The directive of the C5 counterexample. -/
def c5CexDirective : JSVal :=
  .obj [("column_name", .str "To Do"), ("project_name", .str "Nonexistent"),
    ("labels", .arr [.str "help wanted"])]

/-- Counterexample to **C5** as stated: with no matching project, the
directive *is* skipped, but no project-lookup failure is ever logged — the
run logs the *column*-lookup failure instead (the project-not-found
condition never arises: `getProject` resolves with `undefined`, and the
crash happens reading `project.id` inside the column try block). -/
theorem c5_counterexample_project_miss_logged_as_column_failure :
    processDirective c5CexEnv c5CexDirective = [.reqProjects, .errColumnLookup]
    ∧ (processDirective c5CexEnv c5CexDirective).countP LogEvent.isErrProjectLookup = 0
    ∧ (processDirective c5CexEnv c5CexDirective).countP LogEvent.isErrColumnLookup = 1 :=
  ⟨rfl, rfl, rfl⟩

/-- **C5** (amended): for every directive on the name path whose project
name has no exact match, `getProject` resolves with `undefined` (after the
single project-list request); the orchestrator then fails reading
`project.id` inside the *column*-lookup try block, logs the column-lookup
failure, and skips the directive — no column-list or card request is ever
issued, but no project-not-found condition or log is produced. -/
theorem c5_project_miss_skips_via_column_catch (env : Env)
    (fields : List (String × JSVal)) (s : String)
    (hid : jsTruthy (objGet fields "column_id") = false)
    (hname : objGet fields "project_name" = .str s) (hs : s ≠ "")
    (hmiss : ∀ p ∈ env.projects, p.name ≠ s) :
    processDirective env (.obj fields) = [.reqProjects, .errColumnLookup] := by
  rw [processDirective,
    show jsGet (.obj fields) "column_id" = objGet fields "column_id" from rfl,
    hid, if_neg (by simp),
    show jsGet (.obj fields) "project_name" = objGet fields "project_name" from rfl,
    hname, getProject, if_neg hs]
  have hfind : env.projects.find? (fun p => p.name == s) = none := by
    rw [List.find?_eq_none]
    intro p hp
    simpa using hmiss p hp
  rw [hfind]
  rfl

/-- The remote state of the C5 witness. -/
def c5WitEnv : Env := ⟨[⟨1, "Other"⟩], fun _ => [], fun _ => []⟩

/-- Witness for C5 at a concrete environment and directive. -/
theorem c5_witness :
    processDirective c5WitEnv
      (.obj [("column_name", .str "To Do"), ("project_name", .str "Nonexistent"),
        ("labels", .arr [.str "x"])])
      = [.reqProjects, .errColumnLookup] :=
  c5_project_miss_skips_via_column_catch c5WitEnv _ "Nonexistent" rfl rfl
    (by decide) (by decide)

/-- **C2** (code bug, demonstration): the validator rejects the README's own
documented form of an integer `column_id` — the column-id path requires a
*non-empty string* — and when an integer `column_id` is present together
with both name fields, the *name* path wins and `column_id` is deleted,
the opposite of the claimed precedence. -/
theorem c2_integer_column_id_rejected_and_loses_precedence :
    validateColumnLabels
        (.obj [("column_id", .num 16739169), ("labels", .arr [.str "Help Wanted"])]) 0
      = .error (.referenceError
          "element of columns_labels does not contain valid identifiers for a github column")
    ∧ validateColumnLabels
        (.obj [("column_id", .num 42), ("column_name", .str "To Do"),
          ("project_name", .str "Test"), ("labels", .arr [.str "Help Wanted"])]) 0
      = .ok (.obj [("column_name", .str "To Do"), ("project_name", .str "Test"),
          ("labels", .arr [.str "help wanted"])]) :=
  ⟨rfl, rfl⟩

/-- The column of the C1 scenario: three issue cards and one note card. -/
def c1Cards : List Card :=
  [⟨101, some "https://api.github.com/repos/o/r/issues/1"⟩,
   ⟨102, some "https://api.github.com/repos/o/r/issues/2"⟩,
   ⟨103, some "https://api.github.com/repos/o/r/issues/3"⟩,
   ⟨104, none⟩]

/-- The remote state of the C1 scenario. -/
def c1Env : Env := ⟨[], fun _ => [], fun n => if n = 42 then c1Cards else []⟩

/-- The configuration of the C1 scenario: one directive for column 42
(`column_id` given as the string `"42"`, the only form the validator
accepts). -/
def c1Input : JSVal :=
  .arr [.obj [("column_id", .str "42"), ("labels", .arr [.str "Help Wanted"])]]

/-- The full trace of the run on the C1 scenario. -/
def c1Trace : List LogEvent :=
  [.reqCardPage 42, .reqIssueLabels 1, .reqIssueLabels 2, .reqIssueLabels 3]

/-- **C1** (code-bug demonstration): on a validated directive whose column
resolves and paginates successfully (3 issue cards), `main` performs the
page request and then only *fetches and logs* each issue's current labels
(the leftover debug loop, src/index.js lines 437-449); it never invokes
`labelCards` — the dispatch at line 450 is commented out — so the trace
contains three issue-label fetches and zero dispatcher invocations, where
the claim requires exactly one `labelCards` invocation. -/
theorem c1_main_fetches_labels_but_never_dispatches :
    main c1Env c1Input = .ok c1Trace
    ∧ c1Trace.countP LogEvent.isLabelCardsCall = 0
    ∧ c1Trace.countP LogEvent.isReqIssueLabels = 3 := by
  refine ⟨?_, rfl, rfl⟩
  have hcards : getColumnCardIssues c1Env (.str "42")
      = (.ok [⟨101, some "https://api.github.com/repos/o/r/issues/1"⟩,
          ⟨102, some "https://api.github.com/repos/o/r/issues/2"⟩,
          ⟨103, some "https://api.github.com/repos/o/r/issues/3"⟩],
        [.reqCardPage 42]) := by
    rw [getColumnCardIssues_eval c1Env (.str "42") 42 rfl]
    rfl
  have hmain : main c1Env c1Input
      = .ok (processDirective c1Env
          (.obj [("column_id", .str "42"), ("labels", .arr [.str "help wanted"])]) ++ []) := rfl
  rw [hmain, List.append_nil,
    show processDirective c1Env
        (.obj [("column_id", .str "42"), ("labels", .arr [.str "help wanted"])])
      = finishDirective c1Env (.str "42") from rfl,
    finishDirective, hcards]
  rfl


end RemoveLabel
